import Mathlib

/-!
Verification of the database connection manager of `internal/db/manager.go`
(golang-boilerplate).

Shallow embedding conventions:
* Durations and timestamps are `Int` nanoseconds (Go `time.Duration` / `time.Time`).
* External effects (the gorm/database driver, the clock, sleeping) are oracles
  passed in as parameters; emitted `Event`s record the observable actions
  (connection attempts, sleeps, writes to shared state with the lock-held flag,
  probes, goroutine starts, pool close).
* Fallible external calls are `Option String`: `none` is success, `some msg`
  is a Go `error` whose `Error()` string is `msg`.
-/

namespace DbManager

/-- One nanosecond-denominated second, Go's `time.Second`. -/
def second : Int := 1000000000

/-- Modelled from the spec: the configuration surface consumed by the manager
(spec section 6; the `internal/config` package sources are not under `src/`).
Field names follow the `cfg.Database*` accesses in `internal/db/manager.go`. -/
structure Config where
  databaseRetryAttempts : Nat
  databaseRetryDelay : Int
  databaseMaxOpenConns : Int
  databaseMaxIdleConns : Int
  databaseConnMaxLifetime : Int
  databaseConnMaxIdleTime : Int
  databaseConnectTimeout : Int
  databaseHealthTimeout : Int
deriving DecidableEq, Repr

/-- `HealthStatus` of `internal/db/manager.go` (lines 30-36). -/
structure HealthStatus where
  isHealthy : Bool
  lastCheck : Int
  lastError : String
  responseTime : Int
  retryCount : Int
deriving DecidableEq, Repr

/-- `ConnectionMetrics` of `internal/db/manager.go` (lines 39-48). -/
structure ConnectionMetrics where
  totalConnections : Int
  openConnections : Int
  idleConnections : Int
  inUseConnections : Int
  waitCount : Int
  waitDuration : Int
  maxOpenConnections : Int
  maxIdleConnections : Int
deriving DecidableEq, Repr

/-- The pool statistics returned by `database/sql.DB.Stats()`, as read by
`updateMetrics` (fields `OpenConnections`, `Idle`, `InUse`, `WaitCount`,
`WaitDuration`). -/
structure PoolStats where
  openConnections : Int
  idle : Int
  inUse : Int
  waitCount : Int
  waitDuration : Int
deriving DecidableEq, Repr

/-- Error categories of the `internal/errors` package. Modelled from the spec:
the package sources are not under `src/`; the taxonomy is documented in the
repository README ("Error Types"). -/
inductive ErrorType where
  | validation | notFoundKind | unauthorized | forbidden | conflict
  | internalKind | externalKind | database | cache | timeoutKind
deriving DecidableEq, Repr

/-- Modelled from the spec: the `AppError` structure documented in the
repository README ("Error Structure"); the `internal/errors` constructor
sources are not under `src/`. An error cause is modelled by its `Error()`
string; timestamp and stack trace are omitted. -/
structure AppError where
  message : String
  errType : ErrorType
  cause : Option String
  operation : String
  resource : String
  context : List (String × Int)
deriving DecidableEq, Repr

/-- Modelled from the spec: `errors.DatabaseError(message, cause)` constructor
(README usage examples). -/
def databaseError (message : String) (cause : Option String) : AppError :=
  { message := message, errType := ErrorType.database, cause := cause,
    operation := "", resource := "", context := [] }

/-- Modelled from the spec: the `WithOperation` builder on `AppError`. -/
def AppError.withOperation (e : AppError) (op : String) : AppError :=
  { e with operation := op }

/-- Modelled from the spec: the `WithResource` builder on `AppError`. -/
def AppError.withResource (e : AppError) (res : String) : AppError :=
  { e with resource := res }

/-- Modelled from the spec: the `WithContext` builder on `AppError`. -/
def AppError.withContext (e : AppError) (key : String) (value : Int) : AppError :=
  { e with context := e.context ++ [(key, value)] }

/-- Observable actions of the manager.  `healthWrite b` is one assignment to a
field of the shared `healthStatus` struct, with `b` recording whether the
exclusive lock `dm.mu` is held at that assignment; `metricsWrite b` likewise
for the `metrics` struct.  `sleep d` is `time.Sleep(d)`, `attemptConn i` is the
`i`-th call of `dm.connect()`, `probe` is a `PingContext` liveness probe,
`closeConn` is `sqlDB.Close()`, and the two `start*` events are the `go`
statements launching the background routines. -/
inductive Event where
  | attemptConn (attempt : Nat)
  | sleep (d : Int)
  | healthWrite (lockHeld : Bool)
  | metricsWrite (lockHeld : Bool)
  | probe
  | startHealthRoutine
  | startMetricsRoutine
  | closeConn
deriving DecidableEq, Repr

/-- The zero-valued `HealthStatus` a fresh manager starts with
(`HealthStatus{IsHealthy: false}` in `NewDatabaseManager`, other fields Go
zero values). -/
def initialHealthStatus : HealthStatus :=
  { isHealthy := false, lastCheck := 0, lastError := "", responseTime := 0,
    retryCount := 0 }

/-- The zero-valued `ConnectionMetrics` (`&ConnectionMetrics{}`). -/
def initialMetrics : ConnectionMetrics :=
  { totalConnections := 0, openConnections := 0, idleConnections := 0,
    inUseConnections := 0, waitCount := 0, waitDuration := 0,
    maxOpenConnections := 0, maxIdleConnections := 0 }

/-- The manager's shared mutable state: `dm.healthStatus`, `*dm.metrics`, and
whether `dm.db` is non-nil. -/
structure ManagerState where
  healthStatus : HealthStatus
  metrics : ConnectionMetrics
  hasDB : Bool
deriving DecidableEq, Repr

/-- State of a manager fresh out of the `&DatabaseManager{...}` literal in
`NewDatabaseManager`, before `connectWithRetry` runs. -/
def initialManagerState : ManagerState :=
  { healthStatus := initialHealthStatus, metrics := initialMetrics,
    hasDB := false }

/-- Outcome of `connectWithRetry`: the final `healthStatus`, the emitted
events, and the returned `error` (`none` = Go `nil`). -/
structure RetryOutcome where
  healthStatus : HealthStatus
  events : List Event
  result : Option AppError
deriving DecidableEq, Repr

/-- The error built at line 115 of `manager.go` when all retries are
exhausted. -/
def retriesExhaustedError (cfg : Config) (lastErr : Option String) : AppError :=
  (((databaseError "Failed to connect to database after retries" lastErr).withOperation
      "connect_database").withResource
      "database").withContext "retry_attempts" (cfg.databaseRetryAttempts : Int)

/-- The retry loop of `connectWithRetry` (`manager.go` lines 80-113).
`connectOracle i` is the outcome of the `i`-th `dm.connect()` call (the gorm
open, pool configuration and ping are external effects).  `fuel` is a bound on
the remaining loop-condition checks; every use supplies enough fuel that the
base case is unreachable, so the `attempt ≤ N` test mirrors the Go loop
condition exactly.  Writes to `healthStatus` happen with no `dm.mu` lock taken,
as in the source. -/
def retryLoop (cfg : Config) (connectOracle : Nat → Option String) :
    Nat → Nat → HealthStatus → Option String → RetryOutcome
  | 0, _, hs, lastErr =>
      { healthStatus := hs, events := [],
        result := some (retriesExhaustedError cfg lastErr) }
  | fuel + 1, attempt, hs, lastErr =>
      if attempt ≤ cfg.databaseRetryAttempts then
        match connectOracle attempt with
        | some errMsg =>
            let hs1 := { hs with retryCount := (attempt : Int) }
            let sleeps :=
              if attempt < cfg.databaseRetryAttempts then
                [Event.sleep cfg.databaseRetryDelay]
              else []
            let rest := retryLoop cfg connectOracle fuel (attempt + 1) hs1 (some errMsg)
            { rest with
                events := Event.attemptConn attempt :: Event.healthWrite false ::
                  (sleeps ++ rest.events) }
        | none =>
            { healthStatus := { hs with isHealthy := true, retryCount := 0 },
              events := [Event.attemptConn attempt, Event.healthWrite false,
                Event.healthWrite false],
              result := none }
      else
        { healthStatus := hs, events := [],
          result := some (retriesExhaustedError cfg lastErr) }

/-- `connectWithRetry` (`manager.go` lines 77-119): run the loop from attempt 1
with `lastErr = nil`. -/
def connectWithRetry (cfg : Config) (connectOracle : Nat → Option String)
    (hs : HealthStatus) : RetryOutcome :=
  retryLoop cfg connectOracle (cfg.databaseRetryAttempts + 1) 1 hs none

/-- `updateHealthStatus` (`manager.go` lines 218-226): four field assignments,
all performed between `dm.mu.Lock()` and `dm.mu.Unlock()`; `now` is the
`time.Now()` recorded into `LastCheck`. -/
def updateHealthStatus (st : ManagerState) (isHealthy : Bool)
    (lastError : String) (responseTime : Int) (now : Int) :
    ManagerState × List Event :=
  ({ st with healthStatus :=
      { isHealthy := isHealthy, lastCheck := now, lastError := lastError,
        responseTime := responseTime,
        retryCount := st.healthStatus.retryCount } },
   [Event.healthWrite true, Event.healthWrite true, Event.healthWrite true,
    Event.healthWrite true])

/-- `getHealthStatus` (`manager.go` lines 211-215): a snapshot copy of the
current health status, taken under the read lock. -/
def getHealthStatus (st : ManagerState) : HealthStatus :=
  st.healthStatus

/-- External outcomes consumed by one `HealthCheck` call: the result of
`dm.db.DB()`, the result of `sqlDB.PingContext(ctx)`, and the elapsed times
`time.Since(start)` measured at the handle-failure point and after the ping. -/
structure HealthCheckEnv where
  dbHandle : Option String
  ping : Option String
  handleElapsed : Int
  pingElapsed : Int
deriving DecidableEq, Repr

/-- Outcome of `HealthCheck`: the new manager state, the returned snapshot,
and the emitted events. -/
structure HealthCheckOutcome where
  state : ManagerState
  snapshot : HealthStatus
  events : List Event
deriving DecidableEq, Repr

/-- `HealthCheck` (`manager.go` lines 186-208).  `start` is `time.Now()` at
entry; the status update records `LastCheck = start + elapsed`.  Every failure
is captured into the status and returned as a snapshot; the function is total
(no panic). -/
def HealthCheck (cfg : Config) (env : HealthCheckEnv) (start : Int)
    (st : ManagerState) : HealthCheckOutcome :=
  match env.dbHandle with
  | some errMsg =>
      let r := updateHealthStatus st false errMsg env.handleElapsed
        (start + env.handleElapsed)
      { state := r.1, snapshot := getHealthStatus r.1, events := r.2 }
  | none =>
      match env.ping with
      | some errMsg =>
          let r := updateHealthStatus st false errMsg env.pingElapsed
            (start + env.pingElapsed)
          { state := r.1, snapshot := getHealthStatus r.1,
            events := Event.probe :: r.2 }
      | none =>
          let r := updateHealthStatus st true "" env.pingElapsed
            (start + env.pingElapsed)
          { state := r.1, snapshot := getHealthStatus r.1,
            events := Event.probe :: r.2 }

/-- `FastHealthCheck` (`manager.go` lines 171-183).  Under the read lock:
if the cached status is younger than 10 seconds, return it (no probe);
otherwise fire `go dm.HealthCheck()` and still return the cached status.
The `Bool` records whether the asynchronous full check was triggered. -/
def FastHealthCheck (st : ManagerState) (now : Int) : HealthStatus × Bool :=
  if now - st.healthStatus.lastCheck < 10 * second then
    (st.healthStatus, false)
  else
    (st.healthStatus, true)

/-- `updateMetrics` (`manager.go` lines 249-268), performed under the
exclusive lock.  `dbHandle` is the outcome of `dm.db.DB()`: on error the
metrics are left stale (the error is only logged); otherwise every field is
overwritten from the pool statistics and the configured bounds. -/
def updateMetrics (cfg : Config) (dbHandle : Option String) (stats : PoolStats)
    (st : ManagerState) : ManagerState × List Event :=
  match dbHandle with
  | some _ => (st, [])
  | none =>
      ({ st with metrics :=
          { totalConnections := stats.openConnections,
            openConnections := stats.openConnections,
            idleConnections := stats.idle,
            inUseConnections := stats.inUse,
            waitCount := stats.waitCount,
            waitDuration := stats.waitDuration,
            maxOpenConnections := cfg.databaseMaxOpenConns,
            maxIdleConnections := cfg.databaseMaxIdleConns } },
       [Event.metricsWrite true])

/-- `GetMetrics` (`manager.go` lines 271-275): dereferences `*dm.metrics`
under the read lock, returning a copy by value. -/
def GetMetrics (st : ManagerState) : ConnectionMetrics :=
  st.metrics

/-- `Close` (`manager.go` lines 278-301).  `hasDB` is whether `dm.db != nil`;
`dbHandle` is the outcome of `dm.db.DB()`; `closeResult` the outcome of
`sqlDB.Close()` (emitted as a `closeConn` event whenever it is invoked). -/
def Close (hasDB : Bool) (dbHandle : Option String)
    (closeResult : Option String) : Option AppError × List Event :=
  if hasDB then
    match dbHandle with
    | some errMsg =>
        (some (((databaseError "Failed to get SQL DB for closing"
            (some errMsg)).withOperation "close_database").withResource
            "database"), [])
    | none =>
        match closeResult with
        | some errMsg =>
            (some (((databaseError "Failed to close database connection"
                (some errMsg)).withOperation "close_database").withResource
                "database"), [Event.closeConn])
        | none => (none, [Event.closeConn])
  else
    (none, [])

/-- Outcome of `NewDatabaseManager`: either an error (no manager) or the
constructed manager state, plus the emitted events. -/
structure ConstructionOutcome where
  result : Except AppError ManagerState
  events : List Event
deriving Repr

/-- `NewDatabaseManager` (`manager.go` lines 51-74): build the zero-valued
manager, run `connectWithRetry`; on failure wrap the error and return no
manager (the two background routines are not started); on success launch the
health-check and metrics-collection routines. -/
def NewDatabaseManager (cfg : Config) (connectOracle : Nat → Option String) :
    ConstructionOutcome :=
  let manager := initialManagerState
  let r := connectWithRetry cfg connectOracle manager.healthStatus
  match r.result with
  | some e =>
      { result := Except.error (((databaseError
          "Failed to initialize database manager"
          (some e.message)).withOperation
          "initialize_database_manager").withResource "database"),
        events := r.events }
  | none =>
      { result := Except.ok
          { manager with healthStatus := r.healthStatus, hasDB := true },
        events := r.events ++ [Event.startHealthRoutine, Event.startMetricsRoutine] }

/-- Number of `attemptConn` events in a trace. -/
def countAttempts (tr : List Event) : Nat :=
  tr.countP fun ev => match ev with | Event.attemptConn _ => true | _ => false

/-- Number of `sleep` events in a trace. -/
def countSleeps (tr : List Event) : Nat :=
  tr.countP fun ev => match ev with | Event.sleep _ => true | _ => false

/-- Total duration slept in a trace. -/
def sleptTotal (tr : List Event) : Int :=
  (tr.map fun ev => match ev with | Event.sleep d => d | _ => 0).sum

/-- The event trace of a retry run in which every attempt fails: `n` attempt
blocks starting at attempt number `a`, a single fixed-delay sleep after every
failed attempt except the last, nothing before the first attempt. -/
def allFailEventSpec (d : Int) : Nat → Nat → List Event
  | _, 0 => []
  | a, n + 1 =>
      Event.attemptConn a :: Event.healthWrite false ::
        (if n = 0 then [] else Event.sleep d :: allFailEventSpec d (a + 1) n)

/-- The event trace of a retry run with `j` failures starting at attempt `a`
followed by a success: each failure is followed by one sleep, the final
success block performs the two unlocked status writes. -/
def failThenSuccessSpec (d : Int) : Nat → Nat → List Event
  | a, 0 => [Event.attemptConn a, Event.healthWrite false, Event.healthWrite false]
  | a, j + 1 =>
      Event.attemptConn a :: Event.healthWrite false :: Event.sleep d ::
        failThenSuccessSpec d (a + 1) j

/-! ### Characterization of the retry loop -/

/-- When every attempt fails, the retry loop starting at attempt `a` with
`k` iterations left (`a + k = N + 1`) produces exactly the all-fail trace,
records the last attempted number in `retryCount`, and returns the
retries-exhausted error caused by the last failure. -/
lemma retryLoop_allFail (cfg : Config) (connectOracle : Nat → Option String)
    (hfail : ∀ i, connectOracle i ≠ none) :
    ∀ k fuel a hs e, a + k = cfg.databaseRetryAttempts + 1 → k + 1 ≤ fuel →
      retryLoop cfg connectOracle fuel a hs e =
        { healthStatus :=
            if k = 0 then hs else { hs with retryCount := ((a + k - 1 : Nat) : Int) },
          events := allFailEventSpec cfg.databaseRetryDelay a k,
          result := some (retriesExhaustedError cfg
            (if k = 0 then e else connectOracle (a + k - 1))) } := by
  intro k
  induction k with
  | zero =>
      intro fuel a hs e ha hf
      match fuel, hf with
      | fuel + 1, _ =>
        have hgt : ¬ a ≤ cfg.databaseRetryAttempts := by omega
        simp [retryLoop, hgt, allFailEventSpec]
  | succ k ih =>
      intro fuel a hs e ha hf
      match fuel, hf with
      | fuel + 1, hf =>
        have hle : a ≤ cfg.databaseRetryAttempts := by omega
        cases hm : connectOracle a with
        | none => exact absurd hm (hfail a)
        | some m =>
          cases k with
          | zero =>
              have hnlt : ¬ a < cfg.databaseRetryAttempts := by omega
              rw [retryLoop]
              simp only [if_pos hle, hm, hnlt, if_neg hnlt,
                ih fuel (a + 1) _ (some m) (by omega) (by omega)]
              simp [allFailEventSpec, hm]
          | succ k' =>
              have hlt : a < cfg.databaseRetryAttempts := by omega
              rw [retryLoop]
              simp only [if_pos hle, hm, if_pos hlt,
                ih fuel (a + 1) _ (some m) (by omega) (by omega)]
              have h1 : a + 1 + (k' + 1) - 1 = a + (k' + 1 + 1) - 1 := by omega
              have h2 : allFailEventSpec cfg.databaseRetryDelay a (k' + 1 + 1) =
                  Event.attemptConn a :: Event.healthWrite false ::
                    Event.sleep cfg.databaseRetryDelay ::
                      allFailEventSpec cfg.databaseRetryDelay (a + 1) (k' + 1) := by
                simp [allFailEventSpec]
              simp [h1, h2]

/-- When attempts `a .. a+j-1` fail and attempt `a+j` succeeds within the
configured bound, the retry loop succeeds, sets `isHealthy` and resets
`retryCount` to zero, and emits the fail-then-success trace. -/
lemma retryLoop_failThenSuccess (cfg : Config)
    (connectOracle : Nat → Option String) :
    ∀ j fuel a hs e,
      (∀ i, a ≤ i → i < a + j → connectOracle i ≠ none) →
      connectOracle (a + j) = none →
      a + j ≤ cfg.databaseRetryAttempts →
      j + 1 ≤ fuel →
      retryLoop cfg connectOracle fuel a hs e =
        { healthStatus := { hs with isHealthy := true, retryCount := 0 },
          events := failThenSuccessSpec cfg.databaseRetryDelay a j,
          result := none } := by
  intro j
  induction j with
  | zero =>
      intro fuel a hs e _ hsucc hbound hf
      match fuel, hf with
      | fuel + 1, _ =>
        have hle : a ≤ cfg.databaseRetryAttempts := by omega
        rw [retryLoop]
        simp only [if_pos hle]
        rw [show a + 0 = a from rfl] at hsucc
        simp [hsucc, failThenSuccessSpec]
  | succ j ih =>
      intro fuel a hs e hfail hsucc hbound hf
      match fuel, hf with
      | fuel + 1, hf =>
        have hle : a ≤ cfg.databaseRetryAttempts := by omega
        cases hm : connectOracle a with
        | none =>
            exact absurd hm (hfail a (le_refl a) (by omega))
        | some m =>
          have hlt : a < cfg.databaseRetryAttempts := by omega
          rw [retryLoop]
          simp only [if_pos hle, hm, if_pos hlt]
          rw [ih fuel (a + 1) _ (some m)
            (fun i h1 h2 => hfail i (by omega) (by omega))
            (by rw [show a + 1 + j = a + (j + 1) from by omega]; exact hsucc)
            (by omega) (by omega)]
          simp [failThenSuccessSpec]

/-- Unfolding of the all-fail trace when at least two attempts remain. -/
lemma allFailEventSpec_two (d : Int) (a n : Nat) :
    allFailEventSpec d a (n + 1 + 1) =
      Event.attemptConn a :: Event.healthWrite false :: Event.sleep d ::
        allFailEventSpec d (a + 1) (n + 1) := by
  simp [allFailEventSpec]

/-- `countAttempts` of the all-fail trace is the number of attempts. -/
lemma countAttempts_allFail (d : Int) :
    ∀ n a, countAttempts (allFailEventSpec d a n) = n := by
  intro n
  induction n with
  | zero => intro a; simp [allFailEventSpec, countAttempts]
  | succ n ih =>
      intro a
      cases n with
      | zero => simp [allFailEventSpec, countAttempts, List.countP_cons]
      | succ n' =>
          rw [allFailEventSpec_two]
          have := ih (a + 1)
          simp only [countAttempts, List.countP_cons] at *
          simp [this]

/-- `countSleeps` of the all-fail trace is one less than the number of
attempts. -/
lemma countSleeps_allFail (d : Int) :
    ∀ n a, countSleeps (allFailEventSpec d a n) = n - 1 := by
  intro n
  induction n with
  | zero => intro a; simp [allFailEventSpec, countSleeps]
  | succ n ih =>
      intro a
      cases n with
      | zero => simp [allFailEventSpec, countSleeps, List.countP_cons]
      | succ n' =>
          rw [allFailEventSpec_two]
          have := ih (a + 1)
          simp only [countSleeps, List.countP_cons] at *
          simp [this]

/-- The all-fail trace begins with the first connection attempt: nothing, in
particular no sleep, precedes it. -/
lemma allFail_head (d : Int) (a n : Nat) (hn : 1 ≤ n) :
    (allFailEventSpec d a n).head? = some (Event.attemptConn a) := by
  cases n with
  | zero => omega
  | succ n => simp [allFailEventSpec]

/-- The all-fail trace ends with the unlocked status write of the last failed
attempt: no sleep follows the last attempt. -/
lemma allFail_last (d : Int) :
    ∀ n a, (allFailEventSpec d a (n + 1)).getLast? = some (Event.healthWrite false) := by
  intro n
  induction n with
  | zero => intro a; simp [allFailEventSpec]
  | succ n ih =>
      intro a
      have ihh := ih (a + 1)
      rw [allFailEventSpec_two, List.getLast?_cons_cons, List.getLast?_cons_cons]
      simp only [allFailEventSpec] at ihh ⊢
      rw [List.getLast?_cons_cons]
      exact ihh

/-- `countAttempts` of the fail-then-success trace: the failures plus the
final success. -/
lemma countAttempts_failThenSuccess (d : Int) :
    ∀ j a, countAttempts (failThenSuccessSpec d a j) = j + 1 := by
  intro j
  induction j with
  | zero => intro a; simp [failThenSuccessSpec, countAttempts, List.countP_cons]
  | succ j ih =>
      intro a
      have := ih (a + 1)
      simp only [failThenSuccessSpec, countAttempts, List.countP_cons] at *
      simp [this]

/-- `countSleeps` of the fail-then-success trace: one sleep per failure. -/
lemma countSleeps_failThenSuccess (d : Int) :
    ∀ j a, countSleeps (failThenSuccessSpec d a j) = j := by
  intro j
  induction j with
  | zero => intro a; simp [failThenSuccessSpec, countSleeps, List.countP_cons]
  | succ j ih =>
      intro a
      have := ih (a + 1)
      simp only [failThenSuccessSpec, countSleeps, List.countP_cons] at *
      simp [this]

/-- Total slept duration of the fail-then-success trace: one fixed delay per
failure. -/
lemma sleptTotal_failThenSuccess (d : Int) :
    ∀ j a, sleptTotal (failThenSuccessSpec d a j) = (j : Int) * d := by
  intro j
  induction j with
  | zero => intro a; simp [failThenSuccessSpec, sleptTotal]
  | succ j ih =>
      intro a
      have := ih (a + 1)
      simp only [failThenSuccessSpec, sleptTotal, List.map_cons, List.sum_cons] at *
      rw [this]
      push_cast
      ring

/-! ### Claim theorems -/

/-- C1: for every configured retry-attempt count `N ≥ 1` and a connection
target failing on every attempt, `connectWithRetry` performs exactly `N`
connection attempts, sleeps the configured fixed delay exactly `N - 1` times —
after each failed attempt except the last, never before the first attempt
(the trace starts with attempt 1) and never after the last (the trace ends
with the last attempt's status write) — and returns a database error caused by
the `N`-th failure. -/
theorem connect_retry_all_attempts_fail (cfg : Config)
    (connectOracle : Nat → Option String) (hs : HealthStatus)
    (hN : 1 ≤ cfg.databaseRetryAttempts)
    (hfail : ∀ i, connectOracle i ≠ none) :
    countAttempts (connectWithRetry cfg connectOracle hs).events =
        cfg.databaseRetryAttempts ∧
    countSleeps (connectWithRetry cfg connectOracle hs).events =
        cfg.databaseRetryAttempts - 1 ∧
    (connectWithRetry cfg connectOracle hs).events =
        allFailEventSpec cfg.databaseRetryDelay 1 cfg.databaseRetryAttempts ∧
    ((connectWithRetry cfg connectOracle hs).events).head? =
        some (Event.attemptConn 1) ∧
    ((connectWithRetry cfg connectOracle hs).events).getLast? =
        some (Event.healthWrite false) ∧
    ∃ e, (connectWithRetry cfg connectOracle hs).result = some e ∧
      e.errType = ErrorType.database ∧
      e.message = "Failed to connect to database after retries" ∧
      e.cause = connectOracle cfg.databaseRetryAttempts := by
  have hmain := retryLoop_allFail cfg connectOracle hfail
    cfg.databaseRetryAttempts (cfg.databaseRetryAttempts + 1) 1 hs none
    (by omega) (by omega)
  have hne : cfg.databaseRetryAttempts ≠ 0 := by omega
  have hidx : 1 + cfg.databaseRetryAttempts - 1 = cfg.databaseRetryAttempts := by
    omega
  rw [if_neg hne, if_neg hne, hidx] at hmain
  unfold connectWithRetry
  rw [hmain]
  refine ⟨countAttempts_allFail _ _ _, countSleeps_allFail _ _ _, rfl, ?_, ?_, ?_⟩
  · exact allFail_head cfg.databaseRetryDelay 1 cfg.databaseRetryAttempts hN
  · rw [show cfg.databaseRetryAttempts = cfg.databaseRetryAttempts - 1 + 1 from by
      omega]
    exact allFail_last cfg.databaseRetryDelay _ 1
  · refine ⟨_, rfl, rfl, rfl, ?_⟩
    simp [retriesExhaustedError, databaseError, AppError.withOperation,
      AppError.withResource, AppError.withContext]

/-- A concrete configuration for witnesses: the spec's defaults
(3 attempts, 1s delay, 25/5 pool bounds, 5m/1m lifetimes, 30s/5s timeouts). -/
def wCfg : Config :=
  { databaseRetryAttempts := 3, databaseRetryDelay := second,
    databaseMaxOpenConns := 25, databaseMaxIdleConns := 5,
    databaseConnMaxLifetime := 300 * second,
    databaseConnMaxIdleTime := 60 * second,
    databaseConnectTimeout := 30 * second,
    databaseHealthTimeout := 5 * second }

/-- A connection target that fails on every attempt. -/
def wFailOracle : Nat → Option String := fun _ => some "connection refused"

theorem connect_retry_all_attempts_fail_witness :
    1 ≤ wCfg.databaseRetryAttempts ∧
    (countAttempts (connectWithRetry wCfg wFailOracle initialHealthStatus).events =
        wCfg.databaseRetryAttempts ∧
    countSleeps (connectWithRetry wCfg wFailOracle initialHealthStatus).events =
        wCfg.databaseRetryAttempts - 1 ∧
    (connectWithRetry wCfg wFailOracle initialHealthStatus).events =
        allFailEventSpec wCfg.databaseRetryDelay 1 wCfg.databaseRetryAttempts ∧
    ((connectWithRetry wCfg wFailOracle initialHealthStatus).events).head? =
        some (Event.attemptConn 1) ∧
    ((connectWithRetry wCfg wFailOracle initialHealthStatus).events).getLast? =
        some (Event.healthWrite false) ∧
    ∃ e, (connectWithRetry wCfg wFailOracle initialHealthStatus).result = some e ∧
      e.errType = ErrorType.database ∧
      e.message = "Failed to connect to database after retries" ∧
      e.cause = wFailOracle wCfg.databaseRetryAttempts) :=
  ⟨by decide, connect_retry_all_attempts_fail wCfg wFailOracle initialHealthStatus
    (by decide) (fun i => by simp [wFailOracle])⟩

/-- C5: if the connection target fails on attempts `1..k-1` and succeeds on
attempt `k ≤ N`, `connectWithRetry` returns success (nil error) after sleeping
the fixed delay exactly `k - 1` times (a total slept duration of
`(k-1) × delay`), and on success `retryCount` is reset to 0 (and the status is
marked healthy). -/
theorem connect_retry_eventual_success (cfg : Config)
    (connectOracle : Nat → Option String) (hs : HealthStatus) (k : Nat)
    (hk1 : 1 ≤ k) (hkN : k ≤ cfg.databaseRetryAttempts)
    (hfail : ∀ i, 1 ≤ i → i < k → connectOracle i ≠ none)
    (hsucc : connectOracle k = none) :
    (connectWithRetry cfg connectOracle hs).result = none ∧
    (connectWithRetry cfg connectOracle hs).healthStatus.isHealthy = true ∧
    (connectWithRetry cfg connectOracle hs).healthStatus.retryCount = 0 ∧
    countAttempts (connectWithRetry cfg connectOracle hs).events = k ∧
    countSleeps (connectWithRetry cfg connectOracle hs).events = k - 1 ∧
    sleptTotal (connectWithRetry cfg connectOracle hs).events =
      ((k : Int) - 1) * cfg.databaseRetryDelay := by
  have hmain := retryLoop_failThenSuccess cfg connectOracle (k - 1)
    (cfg.databaseRetryAttempts + 1) 1 hs none
    (fun i h1 h2 => hfail i h1 (by omega))
    (by rw [show 1 + (k - 1) = k from by omega]; exact hsucc)
    (by omega) (by omega)
  unfold connectWithRetry
  rw [hmain]
  refine ⟨rfl, rfl, rfl, ?_, ?_, ?_⟩
  · rw [countAttempts_failThenSuccess]; omega
  · rw [countSleeps_failThenSuccess]
  · rw [sleptTotal_failThenSuccess]
    have hcast : ((k - 1 : Nat) : Int) = (k : Int) - 1 := by omega
    rw [hcast]

/-- A connection target that fails on attempts 1 and 2 and succeeds on
attempt 3 (the spec's scenario). -/
def wFlakyOracle : Nat → Option String :=
  fun i => if i < 3 then some "connection refused" else none

theorem connect_retry_eventual_success_witness :
    (1 ≤ 3 ∧ 3 ≤ wCfg.databaseRetryAttempts ∧ wFlakyOracle 3 = none) ∧
    ((connectWithRetry wCfg wFlakyOracle initialHealthStatus).result = none ∧
    (connectWithRetry wCfg wFlakyOracle initialHealthStatus).healthStatus.isHealthy = true ∧
    (connectWithRetry wCfg wFlakyOracle initialHealthStatus).healthStatus.retryCount = 0 ∧
    countAttempts (connectWithRetry wCfg wFlakyOracle initialHealthStatus).events = 3 ∧
    countSleeps (connectWithRetry wCfg wFlakyOracle initialHealthStatus).events = 3 - 1 ∧
    sleptTotal (connectWithRetry wCfg wFlakyOracle initialHealthStatus).events =
      ((3 : Int) - 1) * wCfg.databaseRetryDelay) :=
  ⟨⟨by decide, by decide, by decide⟩,
    connect_retry_eventual_success wCfg wFlakyOracle initialHealthStatus 3
      (by decide) (by decide)
      (fun i h1 h2 => by
        simp only [wFlakyOracle, if_pos h2]
        exact Option.some_ne_none _)
      (by decide)⟩

/-- No event of a retry-loop run is a lock-held `healthStatus` write: the
retry path performs all its status writes without taking `dm.mu`. -/
lemma retryLoop_no_locked_write (cfg : Config)
    (connectOracle : Nat → Option String) :
    ∀ fuel a hs e,
      Event.healthWrite true ∉ (retryLoop cfg connectOracle fuel a hs e).events := by
  intro fuel
  induction fuel with
  | zero => intro a hs e; simp [retryLoop]
  | succ fuel ih =>
      intro a hs e
      rw [retryLoop]
      by_cases h : a ≤ cfg.databaseRetryAttempts
      · simp only [if_pos h]
        cases hc : connectOracle a with
        | some m =>
            by_cases hlt : a < cfg.databaseRetryAttempts
            · simp [hlt, List.mem_cons, List.mem_append, ih]
            · simp [hlt, List.mem_cons, ih]
        | none => simp
      · simp [h]

/-- The all-fail retry trace contains no goroutine-start events. -/
lemma allFail_no_start (d : Int) :
    ∀ n a, Event.startHealthRoutine ∉ allFailEventSpec d a n ∧
      Event.startMetricsRoutine ∉ allFailEventSpec d a n := by
  intro n
  induction n with
  | zero => intro a; simp [allFailEventSpec]
  | succ n ih =>
      intro a
      cases n with
      | zero => simp [allFailEventSpec]
      | succ n' =>
          have := ih (a + 1)
          rw [allFailEventSpec_two]
          simp [List.mem_cons, this.1, this.2]

/-- A configuration with a single connection attempt, used for the
counterexample below. -/
def cxCfg : Config :=
  { databaseRetryAttempts := 1, databaseRetryDelay := second,
    databaseMaxOpenConns := 25, databaseMaxIdleConns := 5,
    databaseConnMaxLifetime := 300 * second,
    databaseConnMaxIdleTime := 60 * second,
    databaseConnectTimeout := 30 * second,
    databaseHealthTimeout := 5 * second }

/-- C2 counterexample: it is not the case that every write to the shared
`healthStatus` happens while holding the exclusive lock — on a concrete
one-attempt always-failing run, `connectWithRetry` emits a `healthStatus`
write (its `RetryCount` update at `manager.go` line 88) with the lock not
held. -/
theorem health_writes_locked_counterexample :
    ¬ (∀ ev ∈ (connectWithRetry cxCfg wFailOracle initialHealthStatus).events,
        ∀ lockHeld, ev = Event.healthWrite lockHeld → lockHeld = true) := by
  decide

/-- C2 amended: the health-check path's writes to `HealthStatus`
(`updateHealthStatus`) are all performed under the exclusive lock, but the
connect-retry routine performs its `retryCount`/`isHealthy` updates without
holding the lock (it runs during construction, before the background
routines are started). -/
theorem health_writes_locked_amended :
    (∀ st isHealthy lastError responseTime now,
      (updateHealthStatus st isHealthy lastError responseTime now).2 =
        List.replicate 4 (Event.healthWrite true)) ∧
    (∀ cfg connectOracle hs,
      Event.healthWrite true ∉ (connectWithRetry cfg connectOracle hs).events) := by
  constructor
  · intro st isHealthy lastError responseTime now
    simp [updateHealthStatus, List.replicate]
  · intro cfg connectOracle hs
    exact retryLoop_no_locked_write cfg connectOracle _ 1 hs none

/-- C4: if all configured connection attempts fail, `NewDatabaseManager`
returns a database error and no manager, and neither the health-check routine
nor the metrics-collection routine is started. -/
theorem construction_fatal_on_exhaustion (cfg : Config)
    (connectOracle : Nat → Option String)
    (hfail : ∀ i, connectOracle i ≠ none) :
    (∃ e, (NewDatabaseManager cfg connectOracle).result = Except.error e ∧
      e.errType = ErrorType.database ∧
      e.message = "Failed to initialize database manager") ∧
    Event.startHealthRoutine ∉ (NewDatabaseManager cfg connectOracle).events ∧
    Event.startMetricsRoutine ∉ (NewDatabaseManager cfg connectOracle).events := by
  have hmain := retryLoop_allFail cfg connectOracle hfail
    cfg.databaseRetryAttempts (cfg.databaseRetryAttempts + 1) 1
    initialManagerState.healthStatus none (by omega) (by omega)
  have hcw : connectWithRetry cfg connectOracle initialManagerState.healthStatus =
      _ := hmain
  have hstart := allFail_no_start cfg.databaseRetryDelay cfg.databaseRetryAttempts 1
  simp only [NewDatabaseManager]
  rw [hcw]
  exact ⟨⟨_, rfl, rfl, rfl⟩, hstart.1, hstart.2⟩

theorem construction_fatal_on_exhaustion_witness :
    (∃ e, (NewDatabaseManager wCfg wFailOracle).result = Except.error e ∧
      e.errType = ErrorType.database ∧
      e.message = "Failed to initialize database manager") ∧
    Event.startHealthRoutine ∉ (NewDatabaseManager wCfg wFailOracle).events ∧
    Event.startMetricsRoutine ∉ (NewDatabaseManager wCfg wFailOracle).events :=
  construction_fatal_on_exhaustion wCfg wFailOracle
    (fun i => by simp [wFailOracle])

/-- C3: after a metrics refresh that obtains the pool handle, `GetMetrics`
returns the snapshot value of the internal metrics (a copy by value, never a
live reference), whose `maxOpenConnections`/`maxIdleConnections` equal the
currently configured pool bounds, whatever the previous metrics or pool
statistics were. -/
theorem getMetrics_reflects_config (cfg : Config) (stats : PoolStats)
    (st : ManagerState) :
    GetMetrics ((updateMetrics cfg none stats st).1) =
      ((updateMetrics cfg none stats st).1).metrics ∧
    (GetMetrics ((updateMetrics cfg none stats st).1)).maxOpenConnections =
      cfg.databaseMaxOpenConns ∧
    (GetMetrics ((updateMetrics cfg none stats st).1)).maxIdleConnections =
      cfg.databaseMaxIdleConns := by
  simp [GetMetrics, updateMetrics]

/-- Concrete pool statistics used by witnesses. -/
def wStats : PoolStats :=
  { openConnections := 7, idle := 2, inUse := 5, waitCount := 1,
    waitDuration := 30 }

/-- C10: a metrics refresh populates `totalConnections` and
`openConnections` from the same pool statistic, so if the two fields agree
before the refresh they agree after it — whether or not the refresh obtains
the handle — and they agree in the zero-valued initial metrics; hence the two
fields never differ in any value `GetMetrics` returns. -/
theorem metrics_total_equals_open (cfg : Config) (dbHandle : Option String)
    (stats : PoolStats) (st : ManagerState)
    (h : st.metrics.totalConnections = st.metrics.openConnections) :
    (GetMetrics ((updateMetrics cfg dbHandle stats st).1)).totalConnections =
      (GetMetrics ((updateMetrics cfg dbHandle stats st).1)).openConnections ∧
    initialMetrics.totalConnections = initialMetrics.openConnections := by
  cases dbHandle <;> simp [GetMetrics, updateMetrics, initialMetrics, h]

theorem metrics_total_equals_open_witness :
    initialManagerState.metrics.totalConnections =
      initialManagerState.metrics.openConnections ∧
    ((GetMetrics ((updateMetrics wCfg none wStats initialManagerState).1)).totalConnections =
      (GetMetrics ((updateMetrics wCfg none wStats initialManagerState).1)).openConnections ∧
    initialMetrics.totalConnections = initialMetrics.openConnections) :=
  ⟨by decide,
    metrics_total_equals_open wCfg none wStats initialManagerState (by decide)⟩

/-- C6: when the liveness probe fails or the connection handle cannot be
obtained (with a non-empty error string, as Go driver errors carry, and the
elapsed time nonnegative and within the configured health-check timeout, as
the probe's context deadline enforces), `HealthCheck` returns a snapshot with
`isHealthy = false`, that non-empty error recorded in `lastError`, a
`responseTime` between 0 and the timeout, and the failure recorded in the
manager state — the snapshot equals the stored status; the function returns
normally (it is total), never panicking across the boundary. -/
theorem healthCheck_failure_recorded (cfg : Config) (env : HealthCheckEnv)
    (start : Int) (st : ManagerState)
    (hhe0 : 0 ≤ env.handleElapsed)
    (hheT : env.handleElapsed ≤ cfg.databaseHealthTimeout)
    (hpe0 : 0 ≤ env.pingElapsed)
    (hpeT : env.pingElapsed ≤ cfg.databaseHealthTimeout)
    (e : String) (hne : e ≠ "")
    (hfail : env.dbHandle = some e ∨ (env.dbHandle = none ∧ env.ping = some e)) :
    (HealthCheck cfg env start st).snapshot.isHealthy = false ∧
    (HealthCheck cfg env start st).snapshot.lastError = e ∧
    (HealthCheck cfg env start st).snapshot.lastError ≠ "" ∧
    0 ≤ (HealthCheck cfg env start st).snapshot.responseTime ∧
    (HealthCheck cfg env start st).snapshot.responseTime ≤
      cfg.databaseHealthTimeout ∧
    (HealthCheck cfg env start st).snapshot =
      (HealthCheck cfg env start st).state.healthStatus := by
  rcases hfail with h | ⟨h1, h2⟩
  · simp [HealthCheck, h, updateHealthStatus, getHealthStatus, hne, hhe0, hheT]
  · simp [HealthCheck, h1, h2, updateHealthStatus, getHealthStatus, hne, hpe0,
      hpeT]

/-- A health-check environment whose ping fails after 3 seconds. -/
def wEnvPingFail : HealthCheckEnv :=
  { dbHandle := none, ping := some "ping timeout", handleElapsed := 0,
    pingElapsed := 3 * second }

theorem healthCheck_failure_recorded_witness :
    (0 ≤ wEnvPingFail.handleElapsed ∧
      wEnvPingFail.handleElapsed ≤ wCfg.databaseHealthTimeout ∧
      0 ≤ wEnvPingFail.pingElapsed ∧
      wEnvPingFail.pingElapsed ≤ wCfg.databaseHealthTimeout ∧
      "ping timeout" ≠ "") ∧
    ((HealthCheck wCfg wEnvPingFail 0 initialManagerState).snapshot.isHealthy = false ∧
    (HealthCheck wCfg wEnvPingFail 0 initialManagerState).snapshot.lastError = "ping timeout" ∧
    (HealthCheck wCfg wEnvPingFail 0 initialManagerState).snapshot.lastError ≠ "" ∧
    0 ≤ (HealthCheck wCfg wEnvPingFail 0 initialManagerState).snapshot.responseTime ∧
    (HealthCheck wCfg wEnvPingFail 0 initialManagerState).snapshot.responseTime ≤
      wCfg.databaseHealthTimeout ∧
    (HealthCheck wCfg wEnvPingFail 0 initialManagerState).snapshot =
      (HealthCheck wCfg wEnvPingFail 0 initialManagerState).state.healthStatus) :=
  ⟨⟨by decide, by decide, by decide, by decide, by decide⟩,
    healthCheck_failure_recorded wCfg wEnvPingFail 0 initialManagerState
      (by decide) (by decide) (by decide) (by decide) "ping timeout" (by decide)
      (Or.inr ⟨rfl, rfl⟩)⟩

/-- C7: after a successful full health check, any two `FastHealthCheck` calls
made while the cached `lastCheck` is less than 10 seconds old both return the
identical cached snapshot and neither triggers a new probe. -/
theorem fast_check_within_window_cached (cfg : Config) (env : HealthCheckEnv)
    (start : Int) (st : ManagerState) (t1 t2 : Int)
    (hok : env.dbHandle = none ∧ env.ping = none)
    (h1 : t1 - (start + env.pingElapsed) < 10 * second)
    (h2 : t2 - (start + env.pingElapsed) < 10 * second) :
    FastHealthCheck (HealthCheck cfg env start st).state t1 =
      ((HealthCheck cfg env start st).state.healthStatus, false) ∧
    FastHealthCheck (HealthCheck cfg env start st).state t2 =
      ((HealthCheck cfg env start st).state.healthStatus, false) ∧
    (FastHealthCheck (HealthCheck cfg env start st).state t1).1 =
      (FastHealthCheck (HealthCheck cfg env start st).state t2).1 := by
  obtain ⟨hd, hp⟩ := hok
  simp [HealthCheck, hd, hp, updateHealthStatus, getHealthStatus,
    FastHealthCheck, h1, h2]

/-- A successful health-check environment (2-second ping round trip). -/
def wEnvOk : HealthCheckEnv :=
  { dbHandle := none, ping := none, handleElapsed := 0,
    pingElapsed := 2 * second }

theorem fast_check_within_window_cached_witness :
    ((100 : Int) - (0 + wEnvOk.pingElapsed) < 10 * second ∧
      (200 : Int) - (0 + wEnvOk.pingElapsed) < 10 * second) ∧
    (FastHealthCheck (HealthCheck wCfg wEnvOk 0 initialManagerState).state 100 =
      ((HealthCheck wCfg wEnvOk 0 initialManagerState).state.healthStatus, false) ∧
    FastHealthCheck (HealthCheck wCfg wEnvOk 0 initialManagerState).state 200 =
      ((HealthCheck wCfg wEnvOk 0 initialManagerState).state.healthStatus, false) ∧
    (FastHealthCheck (HealthCheck wCfg wEnvOk 0 initialManagerState).state 100).1 =
      (FastHealthCheck (HealthCheck wCfg wEnvOk 0 initialManagerState).state 200).1) :=
  ⟨⟨by decide, by decide⟩,
    fast_check_within_window_cached wCfg wEnvOk 0 initialManagerState 100 200
      ⟨rfl, rfl⟩ (by decide) (by decide)⟩

/-- C8: a `FastHealthCheck` call made when the cached status is 10 or more
seconds old triggers the asynchronous full check and immediately returns the
pre-probe cached snapshot, not the new probe's outcome. -/
theorem fast_check_stale_triggers_probe (st : ManagerState) (now : Int)
    (h : 10 * second ≤ now - st.healthStatus.lastCheck) :
    FastHealthCheck st now = (st.healthStatus, true) := by
  have hn : ¬ (now - st.healthStatus.lastCheck < 10 * second) := not_lt.mpr h
  simp [FastHealthCheck, hn]

theorem fast_check_stale_triggers_probe_witness :
    10 * second ≤ (11 * second) - initialManagerState.healthStatus.lastCheck ∧
    FastHealthCheck initialManagerState (11 * second) =
      (initialManagerState.healthStatus, true) :=
  ⟨by decide,
    fast_check_stale_triggers_probe initialManagerState (11 * second) (by decide)⟩

/-- C9: on a manager holding a live connection, `Close` releases the
underlying pooled connection and returns Go `nil` when the underlying close
succeeds; when the handle lookup fails the lookup error is returned wrapped
as a database error (and the close is never invoked), and when the close
fails that first error is returned wrapped as a database error. -/
theorem close_releases_and_propagates (hasDB : Bool)
    (dbHandle closeResult : Option String) (hdb : hasDB = true) :
    (dbHandle = none → closeResult = none →
      Close hasDB dbHandle closeResult = (none, [Event.closeConn])) ∧
    (∀ e, dbHandle = some e →
      ∃ err, (Close hasDB dbHandle closeResult).1 = some err ∧
        err.errType = ErrorType.database ∧ err.cause = some e ∧
        Event.closeConn ∉ (Close hasDB dbHandle closeResult).2) ∧
    (∀ e, dbHandle = none → closeResult = some e →
      ∃ err, (Close hasDB dbHandle closeResult).1 = some err ∧
        err.errType = ErrorType.database ∧ err.cause = some e ∧
        Event.closeConn ∈ (Close hasDB dbHandle closeResult).2) := by
  subst hdb
  refine ⟨?_, ?_, ?_⟩
  · intro h1 h2
    subst h1; subst h2
    rfl
  · intro e he
    subst he
    exact ⟨_, rfl, rfl, rfl, by simp [Close]⟩
  · intro e h1 h2
    subst h1; subst h2
    exact ⟨_, rfl, rfl, rfl, by simp [Close]⟩

theorem close_releases_and_propagates_witness :
    Close true none none = (none, [Event.closeConn]) :=
  (close_releases_and_propagates true none none rfl).1 rfl rfl

end DbManager
